import Mathlib

/-!
Shallow embedding of src/gooeypie/widgets.py: the event-listener machinery of
the GooeyPieWidget base class together with the property facades that the
claims touch (StyleLabel.font_weight, Dropdown.selected, the Listbox
selection accessors, Input.secret). Rendering, geometry and the rest of the
tkinter widget state are outside the model; the slice of native state this
layer drives (bind table, command option, variable traces, variable values)
is carried explicitly in the widget state.
-/

/-- A user callback function. Python functions are modelled by an identifier
together with their declared positional argument count, which is what
callback.__code__.co_argcount reads. -/
structure Callback where
  arity : Nat
  id : Nat
deriving DecidableEq

/-- The Python exceptions raised on the code paths modelled here. Message
texts follow the source with the widget repr and function name interpolations
dropped and quotes removed. -/
inductive PyError
  | gooeyPieError (msg : String)
  | valueError (msg : String)
  | attributeError (msg : String)
  | typeError (msg : String)
deriving DecidableEq

/-- Python dict membership test (k in d) over an association list with unique
keys in insertion order. -/
def dictHas (d : List (String × α)) (k : String) : Bool :=
  d.any (fun p => p.1 == k)

/-- Python dict lookup d[k] as an Option; none models the KeyError case. -/
def dictGet? (d : List (String × α)) (k : String) : Option α :=
  (d.find? (fun p => p.1 == k)).map (fun p => p.2)

/-- Python dict item assignment d[k] = v: updates the existing key in place,
or appends a new key. Item assignment never raises KeyError. -/
def dictSet (d : List (String × α)) (k : String) (v : α) : List (String × α) :=
  if dictHas d k then d.map (fun p => if p.1 == k then (k, v) else p)
  else d ++ [(k, v)]

/-- Key removal, used to model tkinter unbind on the modelled bind table. -/
def dictDel (d : List (String × α)) (k : String) : List (String × α) :=
  d.filter (fun p => !(p.1 == k))

/-- The concrete widget classes of widgets.py, used for the isinstance
dispatch inside add_event_listener. -/
inductive WidgetKind
  | label | button | slider | styleLabel | hyperlink | image | input | secretInput
  | listbox | textbox | imageButton | checkbox | radiogroup | labelRadiogroup
  | dropdown | spinbox | table
deriving DecidableEq

/-- isinstance(self, RadiogroupBase): Radiogroup and LabelRadiogroup. -/
def WidgetKind.isRadiogroupBase : WidgetKind → Bool
  | .radiogroup | .labelRadiogroup => true
  | _ => false

/-- isinstance(self, Input): the Secret class subclasses Input. -/
def WidgetKind.isInput : WidgetKind → Bool
  | .input | .secretInput => true
  | _ => false

/-- What a native command option has been configured to: either
partial(self._event, event_name) or partial(self._slider_change_event,
event_name). -/
inductive CommandTarget
  | eventCb (event_name : String)
  | sliderChangeCb (event_name : String)
deriving DecidableEq

/-- State of a GooeyPieWidget instance plus the slice of native tkinter state
that the event layer drives. -/
structure GooeyPieWidget where
  kind : WidgetKind
  /-- self._events: dict from event name to the registered callback,
  initially None for every supported name. -/
  events : List (String × Option Callback)
  /-- The native bind table: tk event sequence to the gooeypie event name
  bound through partial(self._event, event_name). -/
  bindings : List (String × String)
  /-- The native command option set by configure(command=...); none models
  the empty command. -/
  command : Option CommandTarget
  /-- The command option configured on the radiobutton children of a
  RadiogroupBase. -/
  child_command : Option CommandTarget
  /-- Variable traces added to self._value by the Input change wiring: the
  event names routed through _text_change_event. -/
  traces : List String
  /-- Slider: self._value, an IntVar. The DoubleVar variant chosen for float
  bounds carries the identical comparison logic and is not duplicated. -/
  value_int : Int
  /-- Slider: self._previous_value. -/
  previous_value : Int
  /-- Input: self._value, a StringVar. -/
  text_value : String
  /-- Input: the native show option (the masking character). -/
  show_char : String
  /-- self._disabled. -/
  disabled : Bool
deriving DecidableEq

/-- GooeyPieWidget._tk_event_mappings: gooeypie event names matched with
their corresponding tk event sequences. -/
def GooeyPieWidget._tk_event_mappings : List (String × String) :=
  [ ("mouse_down", "<Button-1>")
  , ("mouse_up", "<ButtonRelease-1>")
  , ("double_click", "<Double-Button-1>")
  , ("triple_click", "<Triple-Button-1>")
  , ("middle_click", "<Button-2>")
  , ("right_click", "<Button-3>")
  , ("mouse_over", "<Enter>")
  , ("mouse_out", "<Leave>")
  , ("key_press", "<Key>")
  , ("focus", "<FocusIn>")
  , ("blur", "<FocusOut>")
  ]

/-- GooeyPieWidget.__init__: all supported events initially set to None. -/
def GooeyPieWidget.init (kind : WidgetKind) : GooeyPieWidget :=
  { kind := kind
  , events := GooeyPieWidget._tk_event_mappings.map (fun p => (p.1, (none : Option Callback)))
  , bindings := []
  , command := none
  , child_command := none
  , traces := []
  , value_int := 0
  , previous_value := 0
  , text_value := ""
  , show_char := ""
  , disabled := false }

/-- Mouse position carried by every tk event payload. -/
structure MouseInfo where
  x : Int
  y : Int
  x_root : Int
  y_root : Int
deriving DecidableEq

/-- Key information carried by a tk event payload. -/
structure KeyInfo where
  char : String
  keysym : String
  keycode : Int
deriving DecidableEq

/-- The native tk event payload handed to a bound callback. -/
structure TkEvent where
  x : Int
  y : Int
  x_root : Int
  y_root : Int
  char : String
  keysym : String
  keycode : Int
deriving DecidableEq

/-- The normalized event object passed to user callbacks. The widget
back-reference self is omitted from the model (it would make the value
cyclic); name, mouse and key are carried as in the source. -/
structure GooeyPieEvent where
  event_name : String
  mouse : Option MouseInfo
  key : Option KeyInfo
deriving DecidableEq

/-- GooeyPieEvent.__init__: all tk events report mouse position; mouse events
set the char field to the string ?? in which case key is set to None. -/
def GooeyPieEvent.make (event_name : String) (tk_event : Option TkEvent) : GooeyPieEvent :=
  match tk_event with
  | some e =>
      { event_name := event_name
      , mouse := some { x := e.x, y := e.y, x_root := e.x_root, y_root := e.y_root }
      , key := if e.char == "??" then none
               else some { char := e.char, keysym := e.keysym, keycode := e.keycode } }
  | none => { event_name := event_name, mouse := none, key := none }

/-- Outcome of running GooeyPieWidget._event: either the registered callback
is invoked with the constructed event object, or an exception propagates. -/
inductive EventOutcome
  | invoked (cb : Callback) (ev : GooeyPieEvent)
  | raised (e : PyError)
deriving DecidableEq

/-- GooeyPieWidget._event: constructs a GooeyPieEvent and calls the
registered callback. A KeyError from the dict lookup is converted to an
AttributeError; if the stored entry is None, calling it raises a TypeError
which the except KeyError clause does not catch. -/
def GooeyPieWidget._event (self : GooeyPieWidget) (event_name : String)
    (tk_event : Option TkEvent) : EventOutcome :=
  match dictGet? self.events event_name with
  | none => .raised (.attributeError s!"{event_name} listener not associated with this widget")
  | some none => .raised (.typeError "NoneType object is not callable")
  | some (some cb) => .invoked cb (GooeyPieEvent.make event_name tk_event)

/-- Outcome of a native trigger reaching one of the special change callbacks:
either nothing is dispatched, or the _event path runs with some outcome. -/
inductive TriggerOutcome
  | silent
  | dispatched (o : EventOutcome)
deriving DecidableEq

/-- GooeyPieWidget._slider_change_event: tk calls this whenever movement is
detected, even when the value did not change; the callback dispatches only
when the value differs from the previous value, updating the previous value
first. -/
def GooeyPieWidget._slider_change_event (self : GooeyPieWidget) (event_name : String) :
    TriggerOutcome × GooeyPieWidget :=
  if self.value_int ≠ self.previous_value then
    let w := { self with previous_value := self.value_int }
    (.dispatched (GooeyPieWidget._event w event_name none), w)
  else
    (.silent, self)

/-- GooeyPieWidget._text_change_event: the trace callback for Input widgets;
the three trace arguments are ignored and the event is dispatched
unconditionally. -/
def GooeyPieWidget._text_change_event (self : GooeyPieWidget) (event_name : String) :
    TriggerOutcome × GooeyPieWidget :=
  (.dispatched (GooeyPieWidget._event self event_name none), self)

/-- The private wiring step of add_event_listener for tk-mapped events:
self.bind(self._tk_event_mappings[event_name], partial(self._event, event_name)).
Only the bind table is touched. -/
def GooeyPieWidget.attach_tk (self : GooeyPieWidget) (event_name : String) : GooeyPieWidget :=
  match dictGet? GooeyPieWidget._tk_event_mappings event_name with
  | some seq => { self with bindings := dictSet self.bindings seq event_name }
  | none => self

/-- The change-event wiring of add_event_listener: the sequence of
non-exclusive isinstance checks from the source (the widget kinds are
disjoint, so at most one fires). -/
def GooeyPieWidget.attach_change (self : GooeyPieWidget) (event_name : String) : GooeyPieWidget :=
  if event_name == "change" then
    let w1 := if self.kind.isRadiogroupBase then
        { self with child_command := some (.eventCb event_name) } else self
    let w2 := if w1.kind == .slider then
        { w1 with command := some (.sliderChangeCb event_name) } else w1
    let w3 := if w2.kind == .checkbox || w2.kind == .spinbox then
        { w2 with command := some (.eventCb event_name) } else w2
    let w4 := if w3.kind.isInput then
        { w3 with traces := w3.traces ++ [event_name] } else w3
    let w5 := if w4.kind == .textbox then
        { w4 with bindings := dictSet w4.bindings "<<Modified>>" event_name } else w4
    w5
  else self

/-- The press-event wiring of add_event_listener: configure(command=...). -/
def GooeyPieWidget.attach_press (self : GooeyPieWidget) (event_name : String) : GooeyPieWidget :=
  if event_name == "press" then { self with command := some (.eventCb event_name) }
  else self

/-- The select-event wiring of add_event_listener: virtual event bindings on
listboxes and dropdowns. -/
def GooeyPieWidget.attach_select (self : GooeyPieWidget) (event_name : String) : GooeyPieWidget :=
  if event_name == "select" then
    if self.kind == .listbox then
      { self with bindings := dictSet self.bindings "<<ListboxSelect>>" event_name }
    else if self.kind == .dropdown then
      { self with bindings := dictSet self.bindings "<<ComboboxSelected>>" event_name }
    else self
  else self

/-- The full native wiring performed after the callback has been stored, in
source order: tk-mapped bind, change, press, select. -/
def GooeyPieWidget.attach_triggers (self : GooeyPieWidget) (event_name : String) : GooeyPieWidget :=
  (((self.attach_tk event_name).attach_change event_name).attach_press event_name).attach_select event_name

/-- GooeyPieWidget.add_event_listener: validates the event name against the
supported set, validates the callback arity, stores the callback, and
attaches the native trigger. Returns the widget state after the call paired
with the raised exception, if any. -/
def GooeyPieWidget.add_event_listener (self : GooeyPieWidget) (event_name : String)
    (callback : Callback) : GooeyPieWidget × Option PyError :=
  if dictHas self.events event_name = false then
    (self, some (.gooeyPieError s!"The event {event_name} is not valid for this widget"))
  else if callback.arity ≠ 1 then
    (self, some (.gooeyPieError "Your event function must accept a single argument"))
  else
    let w := { self with events := dictSet self.events event_name (some callback) }
    (w.attach_triggers event_name, none)

/-- GooeyPieWidget.remove_event_listener: inside the try block the dict item
assignment self._events[event_name] = None always succeeds (inserting the key
when absent); for change and press the command option is cleared; otherwise
the lookup self._tk_event_mappings[event_name] either yields the sequence to
unbind or raises the KeyError that the except clause converts to a
ValueError. Returns the widget state after the call paired with the raised
exception, if any. -/
def GooeyPieWidget.remove_event_listener (self : GooeyPieWidget) (event_name : String) :
    GooeyPieWidget × Option PyError :=
  let w1 := { self with events := dictSet self.events event_name none }
  if event_name == "change" || event_name == "press" then
    ({ w1 with command := none }, none)
  else
    match dictGet? GooeyPieWidget._tk_event_mappings event_name with
    | some seq => ({ w1 with bindings := dictDel w1.bindings seq }, none)
    | none =>
        (w1, some (.valueError s!"Cannot remove event. {event_name} is not a valid event for this widget"))

/-- Label.__init__ (event-relevant part): only the base event set. -/
def Label.init : GooeyPieWidget :=
  GooeyPieWidget.init .label

/-- Button.__init__ (event-relevant part): adds the press event, then
registers the given callback through add_event_listener when one is given. -/
def Button.init (callback : Option Callback) : GooeyPieWidget × Option PyError :=
  let w := GooeyPieWidget.init .button
  let w := { w with events := dictSet w.events "press" none }
  match callback with
  | some cb => GooeyPieWidget.add_event_listener w "press" cb
  | none => (w, none)

/-- Slider.__init__ (event-relevant part): adds the change event; the value
variable starts at 0 and the previous value is initialised from it. -/
def Slider.init : GooeyPieWidget :=
  let w := GooeyPieWidget.init .slider
  let w := { w with events := dictSet w.events "change" none }
  { w with value_int := 0, previous_value := 0 }

/-- Input.secret property setter: configures the native show option. -/
def Input.secret_set (self : GooeyPieWidget) (value : Bool) : GooeyPieWidget :=
  if value then { self with show_char := "●" } else { self with show_char := "" }

/-- Input.__init__ (event-relevant part): string variable, secret off, and
the change event added to the supported set. -/
def Input.init : GooeyPieWidget :=
  let w := GooeyPieWidget.init .input
  let w := { w with text_value := "" }
  let w := Input.secret_set w false
  { w with events := dictSet w.events "change" none }

/-- Checkbox.__init__ (event-relevant part): supports the change event. -/
def Checkbox.init : GooeyPieWidget :=
  let w := GooeyPieWidget.init .checkbox
  { w with events := dictSet w.events "change" none }

/-- Spinbox.__init__ (event-relevant part): supports the change event. -/
def Spinbox.init : GooeyPieWidget :=
  let w := GooeyPieWidget.init .spinbox
  { w with events := dictSet w.events "change" none }

/-- Listbox.__init__ (event-relevant part): supports the select event. -/
def Listbox.init : GooeyPieWidget :=
  let w := GooeyPieWidget.init .listbox
  { w with events := dictSet w.events "select" none }

/-- Dropdown.__init__ (event-relevant part): supports the select event. -/
def Dropdown.init : GooeyPieWidget :=
  let w := GooeyPieWidget.init .dropdown
  { w with events := dictSet w.events "select" none }

/-- Slider value property setter: self.set(val) writes the tk variable and
the native scale then invokes the configured command callback. -/
def Slider.set_value (self : GooeyPieWidget) (val : Int) : TriggerOutcome × GooeyPieWidget :=
  let w := { self with value_int := val }
  match w.command with
  | some (.sliderChangeCb event_name) => GooeyPieWidget._slider_change_event w event_name
  | some (.eventCb event_name) => (.dispatched (GooeyPieWidget._event w event_name none), w)
  | none => (.silent, w)

/-- Firing of the traces on self._value: tk runs every write trace on every
write of the variable, whether or not the written value differs. -/
def GooeyPieWidget.trace_trigger (self : GooeyPieWidget) : List TriggerOutcome :=
  self.traces.map (fun event_name => (GooeyPieWidget._text_change_event self event_name).1)

/-- Input text property setter: self._value.set(value) writes the string
variable, which fires every trace attached to it. -/
def Input.set_text (self : GooeyPieWidget) (value : String) :
    List TriggerOutcome × GooeyPieWidget :=
  let w := { self with text_value := value }
  (GooeyPieWidget.trace_trigger w, w)

/-- The triggers a command option can contribute for a given event name. -/
def commandTriggers (c : Option CommandTarget) (self : GooeyPieWidget) (event_name : String) :
    List TriggerOutcome :=
  match c with
  | some (.eventCb name) =>
      if name == event_name then [.dispatched (GooeyPieWidget._event self name none)] else []
  | some (.sliderChangeCb name) =>
      if name == event_name then [(GooeyPieWidget._slider_change_event self name).1] else []
  | none => []

/-- Every native mechanism by which a trigger of the given gooeypie event can
reach the dispatch layer in the given widget state: low-level tk bindings
registered for that event, the command option of the widget, the command
options of radiobutton children, and variable traces. -/
def GooeyPieWidget.triggers_of (self : GooeyPieWidget) (event_name : String)
    (tk_event : TkEvent) : List TriggerOutcome :=
  (self.bindings.filter (fun p => p.2 == event_name)).map
      (fun _ => TriggerOutcome.dispatched (GooeyPieWidget._event self event_name (some tk_event)))
    ++ commandTriggers self.command self event_name
    ++ commandTriggers self.child_command self event_name
    ++ (self.traces.filter (fun n => n == event_name)).map
      (fun n => TriggerOutcome.dispatched (GooeyPieWidget._event self n none))

/-- Whether a trigger outcome actually invoked a user callback. -/
def TriggerOutcome.invokesCallback : TriggerOutcome → Bool
  | .dispatched (.invoked _ _) => true
  | _ => false

/-- Number of trigger outcomes in a list that invoked a user callback. -/
def countInvoked (l : List TriggerOutcome) : Nat :=
  (l.filter (fun o => o.invokesCallback)).length

/-- Whether an event outcome is the MissingListener condition: the
AttributeError produced by the except KeyError clause of _event. -/
def EventOutcome.isMissingListenerError : EventOutcome → Bool
  | .raised (.attributeError _) => true
  | _ => false

/-- font.Font(...).actual(): the dictionary representation of a font that
_get_current_font returns and _set_font writes back through the style. -/
structure FontDict where
  family : String
  size : Int
  weight : String
  slant : String
  underline : Int
  overstrike : Int
deriving DecidableEq

/-- The per-instance style state of a StyleLabel: the font configured on
self._style under the custom style id. The round trip through the tk font
string built by _set_font and parsed back by _get_current_font is collapsed
to the dictionary it transports. -/
structure StyleLabelState where
  font : FontDict
deriving DecidableEq

/-- StyleLabel._get_current_font. -/
def StyleLabel._get_current_font (s : StyleLabelState) : FontDict :=
  s.font

/-- StyleLabel._set_font: configures the style with the font described by the
dictionary. -/
def StyleLabel._set_font (s : StyleLabelState) (fd : FontDict) : StyleLabelState :=
  { s with font := fd }

/-- The new_font[key] = value step of _set_font_property for the
string-valued font keys used by the property setters modelled here. -/
def FontDict.set_key (fd : FontDict) (key value : String) : FontDict :=
  if key == "family" then { fd with family := value }
  else if key == "weight" then { fd with weight := value }
  else if key == "slant" then { fd with slant := value }
  else fd

/-- StyleLabel._set_font_property for string-valued keys. -/
def StyleLabel._set_font_property (s : StyleLabelState) (key value : String) : StyleLabelState :=
  StyleLabel._set_font s (FontDict.set_key (StyleLabel._get_current_font s) key value)

/-- StyleLabel.font_weight setter: the tuple index call validates membership
in (bold, normal) and raises ValueError otherwise; on success the weight key
of the current font is set. Returns the state after the call paired with the
raised exception, if any. -/
def StyleLabel.font_weight_set (s : StyleLabelState) (value : String) :
    StyleLabelState × Option PyError :=
  if value == "bold" || value == "normal" then
    (StyleLabel._set_font_property s "weight" value, none)
  else
    (s, some (.valueError s!"Font weight must be either bold or normal (value specified was {value})"))

/-- The slice of native Combobox state the Dropdown facade drives. -/
structure DropdownState where
  /-- cget(values): the tuple of choices given at construction. -/
  values : List String
  /-- self.current(): index of the displayed value among values, -1 when the
  displayed text is not one of them. -/
  current : Int
  /-- The displayed text, written by self.set(value). -/
  text : String
deriving DecidableEq

/-- Dropdown.__init__ (selection-relevant part). -/
def Dropdown.initState (choices : List String) : DropdownState :=
  { values := choices, current := -1, text := "" }

/-- Dropdown.selected setter: the list index call validates that the value is
one of the choices and raises ValueError otherwise; on success self.set
displays the value, after which the native current() locates it among the
values. Returns the state after the call paired with the raised exception,
if any. -/
def Dropdown.selected_set (d : DropdownState) (value : String) :
    DropdownState × Option PyError :=
  if d.values.contains value then
    ({ d with text := value, current := (d.values.indexOf value : Int) }, none)
  else
    (d, some (.valueError s!"Cannot set Dropdown to {value} as it is not one of the options"))

/-- The slice of native listbox state the Listbox selection accessors read:
the items (self.get(0, end)) and the indices of the selected lines
(self.curselection(), always valid indices in insertion order). -/
structure ListboxState where
  items : List String
  curselection : List Nat
deriving DecidableEq

/-- The three return shapes of the Listbox selection accessors: Python None,
a single scalar, or a collection. -/
inductive SelectReturn (α : Type)
  | pyNone
  | single (x : α)
  | multiple (xs : List α)
deriving DecidableEq

/-- Listbox.selected_index getter: None when nothing is selected, the single
index when one line is selected, the whole index collection otherwise. -/
def Listbox.selected_index (lb : ListboxState) : SelectReturn Nat :=
  match lb.curselection with
  | [] => .pyNone
  | [i] => .single i
  | l => .multiple l

/-- Listbox.selected getter: None, the single selected item looked up in
self.get(0, end), or the list of selected items. Indexing uses a default for
out-of-range indices, which tk never reports from curselection. -/
def Listbox.selected (lb : ListboxState) : SelectReturn String :=
  match lb.curselection with
  | [] => .pyNone
  | [i] => .single (lb.items.getD i "")
  | l => .multiple (l.map (fun i => lb.items.getD i ""))

/-- Input.secret property getter: the body is return self.secret, which
re-enters the same property getter. Modelled with explicit fuel, each unit of
which permits one re-entry; no amount of fuel yields a value. -/
def Input.secret_get : Nat → Option Bool
  | 0 => none
  | n + 1 => Input.secret_get n

/-! Helper lemmas about the dict model and the wiring steps. -/

theorem find?_map_update (t : List (String × α)) (k : String) (v : α)
    (h : dictHas t k = true) :
    (t.map (fun p => if p.1 == k then (k, v) else p)).find? (fun p => p.1 == k) = some (k, v) := by
  induction t with
  | nil => simp [dictHas] at h
  | cons p t ih =>
    simp only [List.map_cons]
    by_cases hp : (p.1 == k) = true
    · rw [if_pos hp, List.find?_cons_of_pos (p := fun q : String × α => q.1 == k) _ (by simp)]
    · rw [if_neg hp, List.find?_cons_of_neg (p := fun q : String × α => q.1 == k) _ hp]
      apply ih
      unfold dictHas at h ⊢
      rw [List.any_cons] at h
      simpa [hp] using h

theorem dictGet?_dictSet_self (d : List (String × α)) (k : String) (v : α) :
    dictGet? (dictSet d k v) k = some v := by
  by_cases h : dictHas d k = true
  · unfold dictSet
    rw [if_pos h]
    unfold dictGet?
    rw [find?_map_update d k v h]
    rfl
  · unfold dictSet
    rw [if_neg h]
    unfold dictGet?
    have hnone : d.find? (fun p => p.1 == k) = none := by
      rw [List.find?_eq_none]
      intro x hx hbx
      exact h (by unfold dictHas; rw [List.any_eq_true]; exact ⟨x, hx, hbx⟩)
    rw [List.find?_append, hnone]
    simp [List.find?]

theorem attach_tk_events (w : GooeyPieWidget) (E : String) :
    (w.attach_tk E).events = w.events := by
  unfold GooeyPieWidget.attach_tk
  split <;> rfl

theorem attach_change_events (w : GooeyPieWidget) (E : String) :
    (w.attach_change E).events = w.events := by
  unfold GooeyPieWidget.attach_change
  by_cases hE : (E == "change") = true
  · rw [if_pos hE]
    cases hk : w.kind <;>
      simp [hk, WidgetKind.isRadiogroupBase, WidgetKind.isInput]
  · rw [if_neg hE]

theorem attach_press_events (w : GooeyPieWidget) (E : String) :
    (w.attach_press E).events = w.events := by
  unfold GooeyPieWidget.attach_press
  split_ifs <;> rfl

theorem attach_select_events (w : GooeyPieWidget) (E : String) :
    (w.attach_select E).events = w.events := by
  unfold GooeyPieWidget.attach_select
  split_ifs <;> rfl

theorem attach_triggers_events (w : GooeyPieWidget) (E : String) :
    (w.attach_triggers E).events = w.events := by
  unfold GooeyPieWidget.attach_triggers
  rw [attach_select_events, attach_press_events, attach_change_events, attach_tk_events]

theorem remove_events (w : GooeyPieWidget) (E : String) :
    (GooeyPieWidget.remove_event_listener w E).1.events = dictSet w.events E none := by
  unfold GooeyPieWidget.remove_event_listener
  split_ifs
  · rfl
  · split <;> rfl

/-! Claim theorems. -/

/-- Claim C8: the Input secret property getter is self-referential, the body
being a read of the same property: each evaluation step re-enters the getter
itself, and no amount of re-entry fuel produces a value, so the getter has no
well-defined non-recursive result. -/
theorem C8_secret_getter_diverges (fuel : Nat) :
    Input.secret_get (fuel + 1) = Input.secret_get fuel ∧ Input.secret_get fuel = none := by
  constructor
  · rfl
  · induction fuel with
    | zero => rfl
    | succ n ih => simpa [Input.secret_get] using ih

/-- Claim C10: the Listbox selection accessors are polymorphic in return
shape: None when no line is selected, a single scalar when exactly one line
is selected, and the collection of indices or items when several are. -/
theorem C10_listbox_selection_shape (lb : ListboxState) :
    (lb.curselection = [] →
      Listbox.selected_index lb = .pyNone ∧ Listbox.selected lb = .pyNone) ∧
    (∀ i, lb.curselection = [i] →
      Listbox.selected_index lb = .single i ∧
      Listbox.selected lb = .single (lb.items.getD i "")) ∧
    (2 ≤ lb.curselection.length →
      Listbox.selected_index lb = .multiple lb.curselection ∧
      Listbox.selected lb = .multiple (lb.curselection.map (fun i => lb.items.getD i ""))) := by
  refine ⟨?_, ?_, ?_⟩
  · intro h
    simp [Listbox.selected_index, Listbox.selected, h]
  · intro i h
    simp [Listbox.selected_index, Listbox.selected, h]
  · intro h
    match hsel : lb.curselection with
    | [] => rw [hsel] at h; simp at h
    | [i] => rw [hsel] at h; simp at h
    | a :: b :: rest =>
      constructor
      · simp [Listbox.selected_index, hsel]
      · simp [Listbox.selected, hsel]

/-- Witness for C10 at a concrete listbox with three items and each of the
three selection shapes. -/
theorem C10_listbox_selection_shape_witness :
    (Listbox.selected_index { items := ["a", "b", "c"], curselection := [] } = .pyNone ∧
     Listbox.selected { items := ["a", "b", "c"], curselection := [] } = .pyNone) ∧
    (Listbox.selected_index { items := ["a", "b", "c"], curselection := [1] } = .single 1 ∧
     Listbox.selected { items := ["a", "b", "c"], curselection := [1] } = .single "b") ∧
    (Listbox.selected_index { items := ["a", "b", "c"], curselection := [0, 2] } = .multiple [0, 2] ∧
     Listbox.selected { items := ["a", "b", "c"], curselection := [0, 2] } = .multiple ["a", "c"]) := by
  refine ⟨(C10_listbox_selection_shape _).1 rfl, ?_, ?_⟩
  · have h := (C10_listbox_selection_shape { items := ["a", "b", "c"], curselection := [1] }).2.1 1 rfl
    exact ⟨h.1, h.2.trans rfl⟩
  · have h := (C10_listbox_selection_shape { items := ["a", "b", "c"], curselection := [0, 2] }).2.2 (by decide)
    exact ⟨h.1, h.2.trans rfl⟩

/-- Claim C3: add_event_listener with a supported event name and a callback
whose arity is not 1 raises the InvalidCallback GooeyPieError and leaves the
widget state, in particular the registration table, unchanged. -/
theorem C3_invalid_callback (w : GooeyPieWidget) (E : String) (cb : Callback)
    (hsup : dictHas w.events E = true) (har : cb.arity ≠ 1) :
    GooeyPieWidget.add_event_listener w E cb =
      (w, some (.gooeyPieError "Your event function must accept a single argument")) := by
  unfold GooeyPieWidget.add_event_listener
  rw [hsup]
  simp [har]

/-- Witness for C3 at a Label and a two-argument callback. -/
theorem C3_invalid_callback_witness :
    GooeyPieWidget.add_event_listener Label.init "mouse_down" { arity := 2, id := 0 } =
      (Label.init, some (.gooeyPieError "Your event function must accept a single argument")) :=
  C3_invalid_callback Label.init "mouse_down" { arity := 2, id := 0 } rfl (by decide)

/-- Claim C5 (amended): _event raises the MissingListener AttributeError
exactly when the event name is not a key of the registration table; when the
key is present but holds no callback the uncaught TypeError from calling
None propagates instead; when a callback is registered it is invoked with
the normalized event object built from the native payload. -/
theorem C5_dispatch_amended (w : GooeyPieWidget) (E : String) (tkev : Option TkEvent) :
    (dictGet? w.events E = none →
      GooeyPieWidget._event w E tkev =
        .raised (.attributeError s!"{E} listener not associated with this widget")) ∧
    (dictGet? w.events E = some none →
      GooeyPieWidget._event w E tkev = .raised (.typeError "NoneType object is not callable")) ∧
    (∀ cb, dictGet? w.events E = some (some cb) →
      GooeyPieWidget._event w E tkev = .invoked cb (GooeyPieEvent.make E tkev)) := by
  refine ⟨fun h => ?_, fun h => ?_, fun cb h => ?_⟩ <;> simp [GooeyPieWidget._event, h]

/-- Witness for C5 at the three registration states. -/
theorem C5_dispatch_amended_witness :
    GooeyPieWidget._event Label.init "bogus" none =
      .raised (.attributeError "bogus listener not associated with this widget") ∧
    GooeyPieWidget._event Slider.init "change" none =
      .raised (.typeError "NoneType object is not callable") ∧
    GooeyPieWidget._event
        (GooeyPieWidget.add_event_listener Slider.init "change" { arity := 1, id := 5 }).1
        "change" none =
      .invoked { arity := 1, id := 5 } (GooeyPieEvent.make "change" none) :=
  ⟨(C5_dispatch_amended Label.init "bogus" none).1 rfl,
   (C5_dispatch_amended Slider.init "change" none).2.1 rfl,
   (C5_dispatch_amended
      (GooeyPieWidget.add_event_listener Slider.init "change" { arity := 1, id := 5 }).1
      "change" none).2.2 { arity := 1, id := 5 } rfl⟩

/-- Claim C5 counterexample: a Slider fresh from its constructor supports the
change event with no registered callback, yet dispatching change raises the
uncaught TypeError from calling None, not the MissingListener
AttributeError. -/
theorem C5_missing_listener_counterexample :
    dictGet? Slider.init.events "change" = some none ∧
    GooeyPieWidget._event Slider.init "change" none =
      .raised (.typeError "NoneType object is not callable") ∧
    (GooeyPieWidget._event Slider.init "change" none).isMissingListenerError = false :=
  ⟨rfl, rfl, rfl⟩

/-- Claim C6 (code bug): the valid event set is meant to be fixed at
construction, but remove_event_listener on a Label with the never-valid name
select inserts that name into the registration table before raising, after
which add_event_listener accepts select on the Label. -/
theorem C6_event_set_growth_bug :
    dictHas Label.init.events "select" = false ∧
    (GooeyPieWidget.add_event_listener Label.init "select" { arity := 1, id := 0 }).2.isSome = true ∧
    dictHas (GooeyPieWidget.remove_event_listener Label.init "select").1.events "select" = true ∧
    (GooeyPieWidget.remove_event_listener Label.init "select").2.isSome = true ∧
    (GooeyPieWidget.add_event_listener
        (GooeyPieWidget.remove_event_listener Label.init "select").1
        "select" { arity := 1, id := 0 }).2 = none ∧
    dictGet? (GooeyPieWidget.add_event_listener
        (GooeyPieWidget.remove_event_listener Label.init "select").1
        "select" { arity := 1, id := 0 }).1.events "select" = some (some { arity := 1, id := 0 }) :=
  ⟨rfl, rfl, rfl, rfl, rfl, rfl⟩

/-- Claim C4 (code bug): select is in the supported set of a Listbox and a
listener is registered and bound, yet remove_event_listener with select
raises the ValueError claiming select is not valid, because the unbind path
looks select up in _tk_event_mappings; the native binding survives. -/
theorem C4_remove_select_listbox_bug :
    dictHas Listbox.init.events "select" = true ∧
    (GooeyPieWidget.add_event_listener Listbox.init "select" { arity := 1, id := 2 }).1.bindings =
      [("<<ListboxSelect>>", "select")] ∧
    (GooeyPieWidget.remove_event_listener
        (GooeyPieWidget.add_event_listener Listbox.init "select" { arity := 1, id := 2 }).1
        "select").2 =
      some (.valueError "Cannot remove event. select is not a valid event for this widget") ∧
    (GooeyPieWidget.remove_event_listener
        (GooeyPieWidget.add_event_listener Listbox.init "select" { arity := 1, id := 2 }).1
        "select").1.bindings =
      [("<<ListboxSelect>>", "select")] :=
  ⟨rfl, rfl, rfl, rfl⟩

/-- Claim C1 counterexample: the Input trace mechanism does not suppress
no-op writes: with a change listener registered and the stored value empty,
a native trace trigger delivering the same empty value dispatches one change
event instead of none. -/
theorem C1_input_trace_counterexample :
    (GooeyPieWidget.add_event_listener Input.init "change" { arity := 1, id := 9 }).1.text_value = "" ∧
    countInvoked
      (Input.set_text
        (GooeyPieWidget.add_event_listener Input.init "change" { arity := 1, id := 9 }).1 "").1 = 1 ∧
    ¬ countInvoked
      (Input.set_text
        (GooeyPieWidget.add_event_listener Input.init "change" { arity := 1, id := 9 }).1 "").1 = 0 :=
  ⟨rfl, rfl, by decide⟩

/-- Claim C7: after remove_event_listener, a native trigger of that event
invokes no user callback: every mechanism that can reach the dispatch layer
for that event in the post-removal state either was detached by the removal
or finds the registration entry cleared to None, in which case dispatch
raises instead of invoking. -/
theorem C7_trigger_after_remove (w : GooeyPieWidget) (E : String) (tkev : TkEvent) :
    (((GooeyPieWidget.remove_event_listener w E).1.triggers_of E tkev).all
      (fun o => !o.invokesCallback)) = true := by
  set w2 := (GooeyPieWidget.remove_event_listener w E).1 with hw2
  have hev : dictGet? w2.events E = some none := by
    rw [hw2, remove_events]
    exact dictGet?_dictSet_self _ _ _
  have hraise : ∀ tke : Option TkEvent,
      GooeyPieWidget._event w2 E tke = .raised (.typeError "NoneType object is not callable") := by
    intro tke
    simp [GooeyPieWidget._event, hev]
  have hcmd : ∀ c : Option CommandTarget, ∀ o ∈ commandTriggers c w2 E,
      o.invokesCallback = false := by
    intro c o ho
    match c with
    | none => simp [commandTriggers] at ho
    | some (.eventCb name) =>
      simp only [commandTriggers] at ho
      by_cases hn : (name == E) = true
      · rw [if_pos hn] at ho
        have hname : name = E := by simpa using hn
        subst hname
        simp at ho
        simp [ho, hraise, TriggerOutcome.invokesCallback]
      · rw [if_neg hn] at ho
        simp at ho
    | some (.sliderChangeCb name) =>
      simp only [commandTriggers] at ho
      by_cases hn : (name == E) = true
      · rw [if_pos hn] at ho
        have hname : name = E := by simpa using hn
        subst hname
        simp at ho
        rw [ho]
        unfold GooeyPieWidget._slider_change_event
        split_ifs
        · simp [GooeyPieWidget._event, hev, TriggerOutcome.invokesCallback]
        · rfl
      · rw [if_neg hn] at ho
        simp at ho
  rw [List.all_eq_true]
  intro o ho
  unfold GooeyPieWidget.triggers_of at ho
  rw [List.mem_append, List.mem_append, List.mem_append] at ho
  rcases ho with ((hb | hc) | hcc) | ht
  · rw [List.mem_map] at hb
    obtain ⟨p, hp, hpo⟩ := hb
    rw [← hpo]
    simp [hraise, TriggerOutcome.invokesCallback]
  · simp [hcmd _ o hc]
  · simp [hcmd _ o hcc]
  · rw [List.mem_map] at ht
    obtain ⟨n, hn, hno⟩ := ht
    rw [List.mem_filter] at hn
    have hname : n = E := by simpa using hn.2
    subst hname
    rw [← hno]
    simp [hraise, TriggerOutcome.invokesCallback]

/-- Claim C9: the enumerated property setters validate membership in their
enumeration synchronously, raising ValueError otherwise and changing
nothing, and on success apply the pure translation: font_weight accepts
exactly bold or normal and writes the weight key of the style font;
Dropdown.selected accepts exactly the configured choices and displays the
chosen value. -/
theorem C9_enumerated_setters (s : StyleLabelState) (d : DropdownState) (v u : String) :
    ((StyleLabel.font_weight_set s v).2 = none ↔ (v = "bold" ∨ v = "normal")) ∧
    ((v = "bold" ∨ v = "normal") →
      StyleLabel.font_weight_set s v = ({ font := { s.font with weight := v } }, none)) ∧
    (¬ (v = "bold" ∨ v = "normal") → (StyleLabel.font_weight_set s v).1 = s) ∧
    ((Dropdown.selected_set d u).2 = none ↔ u ∈ d.values) ∧
    (u ∈ d.values →
      Dropdown.selected_set d u =
        ({ d with text := u, current := (d.values.indexOf u : Int) }, none)) ∧
    (u ∉ d.values → (Dropdown.selected_set d u).1 = d) := by
  refine ⟨?_, ?_, ?_, ?_, ?_, ?_⟩
  · by_cases h : (v = "bold" ∨ v = "normal") <;> simp [StyleLabel.font_weight_set, h]
  · intro h
    rcases h with h | h <;>
      simp [h, StyleLabel.font_weight_set, StyleLabel._set_font_property,
        StyleLabel._set_font, StyleLabel._get_current_font, FontDict.set_key]
  · intro h
    rw [not_or] at h
    simp [StyleLabel.font_weight_set, h.1, h.2]
  · by_cases h : u ∈ d.values
    · simp [Dropdown.selected_set, h]
    · simp [Dropdown.selected_set, h]
  · intro h
    simp [Dropdown.selected_set, h]
  · intro h
    simp [Dropdown.selected_set, h]

/-- Witness for C9 at a concrete style label and a concrete dropdown, on one
accepted and one rejected value each. -/
theorem C9_enumerated_setters_witness :
    StyleLabel.font_weight_set
        { font := { family := "Arial", size := 10, weight := "normal", slant := "roman",
                    underline := 0, overstrike := 0 } } "bold" =
      ({ font := { family := "Arial", size := 10, weight := "bold", slant := "roman",
                   underline := 0, overstrike := 0 } }, none) ∧
    (StyleLabel.font_weight_set
        { font := { family := "Arial", size := 10, weight := "normal", slant := "roman",
                    underline := 0, overstrike := 0 } } "heavy").1 =
      { font := { family := "Arial", size := 10, weight := "normal", slant := "roman",
                  underline := 0, overstrike := 0 } } ∧
    Dropdown.selected_set (Dropdown.initState ["red", "green", "blue"]) "green" =
      ({ values := ["red", "green", "blue"], current := 1, text := "green" }, none) ∧
    (Dropdown.selected_set (Dropdown.initState ["red", "green", "blue"]) "mauve").1 =
      Dropdown.initState ["red", "green", "blue"] := by
  refine ⟨?_, ?_, ?_, ?_⟩
  · exact (C9_enumerated_setters
      { font := { family := "Arial", size := 10, weight := "normal", slant := "roman",
                  underline := 0, overstrike := 0 } }
      (Dropdown.initState ["red", "green", "blue"]) "bold" "green").2.1 (Or.inl rfl)
  · exact (C9_enumerated_setters
      { font := { family := "Arial", size := 10, weight := "normal", slant := "roman",
                  underline := 0, overstrike := 0 } }
      (Dropdown.initState ["red", "green", "blue"]) "heavy" "green").2.2.1 (by decide)
  · have h := (C9_enumerated_setters
      { font := { family := "Arial", size := 10, weight := "normal", slant := "roman",
                  underline := 0, overstrike := 0 } }
      (Dropdown.initState ["red", "green", "blue"]) "bold" "green").2.2.2.2.1 (by decide)
    exact h.trans rfl
  · exact (C9_enumerated_setters
      { font := { family := "Arial", size := 10, weight := "normal", slant := "roman",
                  underline := 0, overstrike := 0 } }
      (Dropdown.initState ["red", "green", "blue"]) "bold" "mauve").2.2.2.2.2 (by decide)

/-- Claim C1 (amended): the slider command callback suppresses a native
trigger delivering a value equal to the last observed value and dispatches
exactly one change event for a differing value, updating the observed value;
the Input trace callback dispatches exactly one change event on every trace
trigger, whether or not the delivered value equals the last observed one. -/
theorem C1_change_suppression_amended (w wi : GooeyPieWidget) (cb cbi : Callback)
    (v : Int) (s : String)
    (hcmd : w.command = some (.sliderChangeCb "change"))
    (hreg : dictGet? w.events "change" = some (some cb))
    (htr : wi.traces = ["change"])
    (hregi : dictGet? wi.events "change" = some (some cbi)) :
    (v = w.previous_value → (Slider.set_value w v).1 = .silent) ∧
    (v ≠ w.previous_value →
      (Slider.set_value w v).1 =
        .dispatched (.invoked cb (GooeyPieEvent.make "change" none)) ∧
      (Slider.set_value w v).2.previous_value = v) ∧
    countInvoked (Input.set_text wi s).1 = 1 := by
  refine ⟨?_, ?_, ?_⟩
  · intro hv
    simp [Slider.set_value, hcmd, GooeyPieWidget._slider_change_event, hv]
  · intro hv
    constructor
    · simp [Slider.set_value, hcmd, GooeyPieWidget._slider_change_event, hv,
        GooeyPieWidget._event, hreg]
    · simp [Slider.set_value, hcmd, GooeyPieWidget._slider_change_event, hv]
  · simp [Input.set_text, GooeyPieWidget.trace_trigger, htr,
      GooeyPieWidget._text_change_event, GooeyPieWidget._event, hregi,
      countInvoked, TriggerOutcome.invokesCallback]

/-- Witness for C1 at the example of the spec: a slider whose last observed
value is 50, set to 50 then to 51, and an input with a registered change
listener written with an unchanged and a changed value alike. -/
theorem C1_change_suppression_amended_witness :
    (Slider.set_value
      (Slider.set_value
        (GooeyPieWidget.add_event_listener Slider.init "change" { arity := 1, id := 1 }).1 50).2
      50).1 = .silent ∧
    (Slider.set_value
      (Slider.set_value
        (GooeyPieWidget.add_event_listener Slider.init "change" { arity := 1, id := 1 }).1 50).2
      51).1 = .dispatched (.invoked { arity := 1, id := 1 } (GooeyPieEvent.make "change" none)) ∧
    (Slider.set_value
      (Slider.set_value
        (GooeyPieWidget.add_event_listener Slider.init "change" { arity := 1, id := 1 }).1 50).2
      51).2.previous_value = 51 ∧
    countInvoked
      (Input.set_text
        (GooeyPieWidget.add_event_listener Input.init "change" { arity := 1, id := 2 }).1
        "hello").1 = 1 := by
  have h50 := C1_change_suppression_amended
    (Slider.set_value
      (GooeyPieWidget.add_event_listener Slider.init "change" { arity := 1, id := 1 }).1 50).2
    (GooeyPieWidget.add_event_listener Input.init "change" { arity := 1, id := 2 }).1
    { arity := 1, id := 1 } { arity := 1, id := 2 } 50 "hello" rfl rfl rfl rfl
  have h51 := C1_change_suppression_amended
    (Slider.set_value
      (GooeyPieWidget.add_event_listener Slider.init "change" { arity := 1, id := 1 }).1 50).2
    (GooeyPieWidget.add_event_listener Input.init "change" { arity := 1, id := 2 }).1
    { arity := 1, id := 1 } { arity := 1, id := 2 } 51 "hello" rfl rfl rfl rfl
  exact ⟨h50.1 rfl, (h51.2.1 (by decide)).1, (h51.2.1 (by decide)).2, h51.2.2⟩

/-! Further wiring lemmas used for claim C2. -/

theorem attach_tk_none (w : GooeyPieWidget) (E : String)
    (h : dictGet? GooeyPieWidget._tk_event_mappings E = none) :
    w.attach_tk E = w := by
  unfold GooeyPieWidget.attach_tk
  rw [h]

theorem attach_tk_some (w : GooeyPieWidget) (E seq : String)
    (h : dictGet? GooeyPieWidget._tk_event_mappings E = some seq) :
    w.attach_tk E = { w with bindings := dictSet w.bindings seq E } := by
  unfold GooeyPieWidget.attach_tk
  rw [h]

theorem attach_change_ne (w : GooeyPieWidget) (E : String) (h : E ≠ "change") :
    w.attach_change E = w := by
  unfold GooeyPieWidget.attach_change
  simp [h]

theorem attach_press_ne (w : GooeyPieWidget) (E : String) (h : E ≠ "press") :
    w.attach_press E = w := by
  unfold GooeyPieWidget.attach_press
  simp [h]

theorem attach_select_ne (w : GooeyPieWidget) (E : String) (h : E ≠ "select") :
    w.attach_select E = w := by
  unfold GooeyPieWidget.attach_select
  simp [h]

theorem tk_mapped_ne (E seq : String)
    (h : dictGet? GooeyPieWidget._tk_event_mappings E = some seq) :
    E ≠ "change" ∧ E ≠ "press" ∧ E ≠ "select" := by
  refine ⟨fun hE => ?_, fun hE => ?_, fun hE => ?_⟩
  · subst hE
    rw [show dictGet? GooeyPieWidget._tk_event_mappings "change" = (none : Option String) from rfl] at h
    exact Option.noConfusion h
  · subst hE
    rw [show dictGet? GooeyPieWidget._tk_event_mappings "press" = (none : Option String) from rfl] at h
    exact Option.noConfusion h
  · subst hE
    rw [show dictGet? GooeyPieWidget._tk_event_mappings "select" = (none : Option String) from rfl] at h
    exact Option.noConfusion h

theorem attach_change_slider (w : GooeyPieWidget) (h : w.kind = .slider) :
    w.attach_change "change" = { w with command := some (.sliderChangeCb "change") } := by
  unfold GooeyPieWidget.attach_change
  simp [h, WidgetKind.isRadiogroupBase, WidgetKind.isInput]

theorem attach_change_input (w : GooeyPieWidget) (h : w.kind = .input) :
    w.attach_change "change" = { w with traces := w.traces ++ ["change"] } := by
  unfold GooeyPieWidget.attach_change
  simp [h, WidgetKind.isRadiogroupBase, WidgetKind.isInput]

theorem attach_press_eq (w : GooeyPieWidget) :
    w.attach_press "press" = { w with command := some (.eventCb "press") } := rfl

theorem attach_select_listbox (w : GooeyPieWidget) (h : w.kind = .listbox) :
    w.attach_select "select" =
      { w with bindings := dictSet w.bindings "<<ListboxSelect>>" "select" } := by
  unfold GooeyPieWidget.attach_select
  simp [h]

/-- Claim C2: add_event_listener raises the InvalidEvent GooeyPieError and
registers nothing when the event name is not in the supported set of the
widget; for a supported name and an arity-1 callback it raises nothing,
stores the callback, and attaches the appropriate native trigger: the tk
binding for mapped events, the command option for press and for change on a
slider, the variable trace for change on an input, and the virtual event
binding for select on a listbox. -/
theorem C2_add_event_listener_spec (w : GooeyPieWidget) (E : String) (cb : Callback) :
    (dictHas w.events E = false →
      GooeyPieWidget.add_event_listener w E cb =
        (w, some (.gooeyPieError s!"The event {E} is not valid for this widget"))) ∧
    (dictHas w.events E = true → cb.arity = 1 →
      (GooeyPieWidget.add_event_listener w E cb).2 = none ∧
      dictGet? (GooeyPieWidget.add_event_listener w E cb).1.events E = some (some cb) ∧
      (∀ seq, dictGet? GooeyPieWidget._tk_event_mappings E = some seq →
        dictGet? (GooeyPieWidget.add_event_listener w E cb).1.bindings seq = some E) ∧
      (E = "press" →
        (GooeyPieWidget.add_event_listener w E cb).1.command = some (.eventCb "press")) ∧
      (E = "change" → w.kind = .slider →
        (GooeyPieWidget.add_event_listener w E cb).1.command = some (.sliderChangeCb "change")) ∧
      (E = "change" → w.kind = .input →
        (GooeyPieWidget.add_event_listener w E cb).1.traces = w.traces ++ ["change"]) ∧
      (E = "select" → w.kind = .listbox →
        dictGet? (GooeyPieWidget.add_event_listener w E cb).1.bindings "<<ListboxSelect>>" =
          some "select")) := by
  constructor
  · intro h
    unfold GooeyPieWidget.add_event_listener
    rw [h]
    rfl
  · intro hsup har
    have hadd : GooeyPieWidget.add_event_listener w E cb =
        (({ w with events := dictSet w.events E (some cb) }).attach_triggers E, none) := by
      unfold GooeyPieWidget.add_event_listener
      rw [hsup]
      simp [har]
    refine ⟨?_, ?_, ?_, ?_, ?_, ?_, ?_⟩
    · rw [hadd]
    · rw [hadd]
      show dictGet? (GooeyPieWidget.attach_triggers _ E).events E = _
      rw [attach_triggers_events]
      exact dictGet?_dictSet_self _ _ _
    · intro seq htk
      obtain ⟨hc, hp, hs⟩ := tk_mapped_ne E seq htk
      rw [hadd]
      show dictGet? (GooeyPieWidget.attach_triggers _ E).bindings seq = _
      unfold GooeyPieWidget.attach_triggers
      rw [attach_tk_some _ _ _ htk, attach_change_ne _ _ hc, attach_press_ne _ _ hp,
        attach_select_ne _ _ hs]
      exact dictGet?_dictSet_self _ _ _
    · intro hE
      subst hE
      rw [hadd]
      show (GooeyPieWidget.attach_triggers _ "press").command = _
      unfold GooeyPieWidget.attach_triggers
      rw [attach_tk_none _ "press" rfl, attach_change_ne _ _ (by decide), attach_press_eq,
        attach_select_ne _ _ (by decide)]
    · intro hE hkind
      subst hE
      rw [hadd]
      show (GooeyPieWidget.attach_triggers _ "change").command = _
      unfold GooeyPieWidget.attach_triggers
      rw [attach_tk_none _ "change" rfl,
        attach_change_slider { w with events := dictSet w.events "change" (some cb) } hkind,
        attach_press_ne _ _ (by decide), attach_select_ne _ _ (by decide)]
    · intro hE hkind
      subst hE
      rw [hadd]
      show (GooeyPieWidget.attach_triggers _ "change").traces = _
      unfold GooeyPieWidget.attach_triggers
      rw [attach_tk_none _ "change" rfl,
        attach_change_input { w with events := dictSet w.events "change" (some cb) } hkind,
        attach_press_ne _ _ (by decide), attach_select_ne _ _ (by decide)]
    · intro hE hkind
      subst hE
      rw [hadd]
      show dictGet? (GooeyPieWidget.attach_triggers _ "select").bindings _ = _
      unfold GooeyPieWidget.attach_triggers
      rw [attach_tk_none _ "select" rfl, attach_change_ne _ _ (by decide),
        attach_press_ne _ _ (by decide),
        attach_select_listbox { w with events := dictSet w.events "select" (some cb) } hkind]
      exact dictGet?_dictSet_self _ _ _

/-- Witness for C2: the invalid-name case on a Label, and the five native
attachment mechanisms each at a concrete widget. -/
theorem C2_add_event_listener_spec_witness :
    GooeyPieWidget.add_event_listener Label.init "bogus" { arity := 1, id := 0 } =
      (Label.init, some (.gooeyPieError "The event bogus is not valid for this widget")) ∧
    (GooeyPieWidget.add_event_listener Label.init "mouse_down" { arity := 1, id := 0 }).2 = none ∧
    dictGet? (GooeyPieWidget.add_event_listener Label.init "mouse_down"
        { arity := 1, id := 0 }).1.events "mouse_down" = some (some { arity := 1, id := 0 }) ∧
    dictGet? (GooeyPieWidget.add_event_listener Label.init "mouse_down"
        { arity := 1, id := 0 }).1.bindings "<Button-1>" = some "mouse_down" ∧
    (GooeyPieWidget.add_event_listener (Button.init none).1 "press"
        { arity := 1, id := 0 }).1.command = some (.eventCb "press") ∧
    (GooeyPieWidget.add_event_listener Slider.init "change"
        { arity := 1, id := 0 }).1.command = some (.sliderChangeCb "change") ∧
    (GooeyPieWidget.add_event_listener Input.init "change"
        { arity := 1, id := 0 }).1.traces = Input.init.traces ++ ["change"] ∧
    dictGet? (GooeyPieWidget.add_event_listener Listbox.init "select"
        { arity := 1, id := 0 }).1.bindings "<<ListboxSelect>>" = some "select" := by
  refine ⟨?_, ?_, ?_, ?_, ?_, ?_, ?_, ?_⟩
  · exact (C2_add_event_listener_spec Label.init "bogus" { arity := 1, id := 0 }).1 rfl
  · exact ((C2_add_event_listener_spec Label.init "mouse_down" { arity := 1, id := 0 }).2
      rfl rfl).1
  · exact ((C2_add_event_listener_spec Label.init "mouse_down" { arity := 1, id := 0 }).2
      rfl rfl).2.1
  · exact ((C2_add_event_listener_spec Label.init "mouse_down" { arity := 1, id := 0 }).2
      rfl rfl).2.2.1 "<Button-1>" rfl
  · exact ((C2_add_event_listener_spec (Button.init none).1 "press" { arity := 1, id := 0 }).2
      rfl rfl).2.2.2.1 rfl
  · exact ((C2_add_event_listener_spec Slider.init "change" { arity := 1, id := 0 }).2
      rfl rfl).2.2.2.2.1 rfl rfl
  · exact ((C2_add_event_listener_spec Input.init "change" { arity := 1, id := 0 }).2
      rfl rfl).2.2.2.2.2.1 rfl rfl
  · exact ((C2_add_event_listener_spec Listbox.init "select" { arity := 1, id := 0 }).2
      rfl rfl).2.2.2.2.2.2 rfl rfl
